import Mathlib

/-!
Verification development for the configuration-persistence layer of the
offset-explorer-rs repository: the secret codec (src-tauri/src/config/crypto.rs),
the typed settings registry (src-tauri/src/config/settings_complete.rs),
the connection store (src-tauri/src/config/server_connection.rs) and the
group tree (src-tauri/src/config/server_group.rs) are embedded shallowly,
and the spec claims about them are settled as theorems.

Conventions of the embedding:
- Machine bytes are Nat values below 256; i32/i64/usize values are Nat or Int
  with explicit overflow or underflow handling where the source can overflow.
- A Rust operation that can panic (out-of-bounds indexing, usize underflow)
  is embedded as an Option or a dedicated result constructor, where none
  (or .panicked) marks the panic.
- Calls into external libraries (the SHA-1 digest, the StdRng byte stream
  seeded from the wall clock, the f64 parser and formatter) are passed in as
  explicit function or data parameters: the repository treats them as opaque
  collaborators and their outputs are inputs to the embedded code.
-/

set_option maxRecDepth 10000

namespace OffsetExplorer

/-! Section crypto: embedding of src-tauri/src/config/crypto.rs. -/

/-- Constant BUFFER_SIZE from config/crypto.rs line 13. -/
def BUFFER_SIZE : Nat := 128

/-- Embedding of generate_key (config/crypto.rs lines 76-102).  In the source
the buffer random is filled by rand StdRng seeded from the current wall-clock
milliseconds; that external byte stream is passed here explicitly as the
random parameter (one Nat per byte).  The loop body is transcribed verbatim:
bit_index = i * 8, byte_index = i / 8, bit_value tests bit (bit_index mod 8)
of random[byte_index], pattern_bit is ((bit_index / 2) mod 2 == 0), and the
key byte is 1 when bit_value XOR pattern_bit holds, else random[byte_index].
Indexing random[byte_index] is embedded with getD because the source
guarantees random.len() == len and byte_index = i / 8 < len. -/
def generate_key (len : Nat) (random : List Nat) : List Nat :=
  (List.range len).map (fun i =>
    let bit_index := i * 8
    let byte_index := i / 8
    let r := random.getD byte_index 0
    let bit_value : Bool := (r &&& (1 <<< (bit_index % 8))) != 0
    let pattern_bit : Bool := (bit_index / 2) % 2 == 0
    if Bool.xor bit_value pattern_bit then 1 else r)

/-- Embedding of the while loop inside generate_filler (config/crypto.rs
lines 61-70).  Each iteration writes digest_bytes[digest_pos] and increments
both positions; the trailing if digest_pos < digest_len continue is a no-op,
so digest_pos grows without bound and the indexing digest_bytes[digest_pos]
panics (embedded as none) once digest_pos reaches the digest length while
iterations remain. -/
def fillerLoop (digest_bytes : List Nat) : Nat → Nat → Option (List Nat)
  | 0, _ => some []
  | n + 1, digest_pos =>
    match digest_bytes.get? digest_pos with
    | none => none
    | some b =>
      match fillerLoop digest_bytes n (digest_pos + 1) with
      | none => none
      | some rest => some (b :: rest)

/-- Embedding of generate_filler (config/crypto.rs lines 51-74).  The
digest_bytes parameter is the SHA-1 digest of the key computed by the caller
(the hash is an external library call).  digest_len = min(digest length,
filler_len); when it is positive the while loop runs for filler_len
iterations, otherwise the zero-initialised buffer is returned unchanged. -/
def generate_filler (digest_bytes : List Nat) (filler_len : Nat) : Option (List Nat) :=
  let digest_len := min digest_bytes.length filler_len
  if 0 < digest_len then fillerLoop digest_bytes filler_len 0
  else some (List.replicate filler_len 0)

/-- Embedding of encrypt_password (config/crypto.rs lines 15-33) at the byte
level: password is the UTF-8 byte list of the plaintext and the returned
value is the BUFFER_SIZE-byte buffer before hex encoding (none marks a
panic).  sha1 is the external SHA-1 digest function and random the external
RNG byte stream used by generate_key.  filler_len = BUFFER_SIZE -
encrypted.len() - 1 is a usize subtraction that panics when the plaintext
is longer than 127 bytes; the buffer layout is byte 0 = filler_len, then
the filler, then the XOR ciphertext. -/
def encrypt_password (sha1 : List Nat → List Nat) (random : List Nat)
    (password : List Nat) : Option (List Nat) :=
  let key := generate_key password.length random
  let encrypted := (List.range password.length).map
    (fun i => (password.getD i 0) ^^^ ((key.getD i 0) &&& 0xFF))
  if encrypted.length + 1 ≤ BUFFER_SIZE then
    let filler_len := BUFFER_SIZE - encrypted.length - 1
    match generate_filler (sha1 key) filler_len with
    | none => none
    | some filler => some (filler_len :: (filler ++ encrypted))
  else none

/-- Hexadecimal digit value, as accepted by the hex crate used in
decrypt_password: 0-9, a-f and A-F. -/
def hexDigitVal (c : Char) : Option Nat :=
  if decide ('0' ≤ c ∧ c ≤ '9') then some (c.toNat - '0'.toNat)
  else if decide ('a' ≤ c ∧ c ≤ 'f') then some (c.toNat - 'a'.toNat + 10)
  else if decide ('A' ≤ c ∧ c ≤ 'F') then some (c.toNat - 'A'.toNat + 10)
  else none

/-- Byte list decoded from a hex character list; none on odd length or on a
non-hex character, matching hex::decode. -/
def hexDecodeChars : List Char → Option (List Nat)
  | [] => some []
  | [_] => none
  | c1 :: c2 :: rest =>
    match hexDigitVal c1, hexDigitVal c2, hexDecodeChars rest with
    | some h, some l, some r => some ((h * 16 + l) :: r)
    | _, _, _ => none

/-- Embedding of hex::decode on a string (hex digits are ASCII, so the char
list of the string matches its byte list). -/
def hexDecode (s : String) : Option (List Nat) :=
  hexDecodeChars s.toList

/-- Continuation byte test for UTF-8 validation. -/
def isCont (b : Nat) : Bool :=
  decide (0x80 ≤ b ∧ b ≤ 0xBF)

/-- UTF-8 validity of a byte list, as checked by String::from_utf8 in
decrypt_password: well-formed sequences only, no overlong forms, no
surrogates, nothing above U+10FFFF. -/
def utf8Valid : List Nat → Bool
  | [] => true
  | b :: rest =>
    if b ≤ 0x7F then utf8Valid rest
    else if decide (0xC2 ≤ b ∧ b ≤ 0xDF) then
      match rest with
      | b1 :: rest1 => isCont b1 && utf8Valid rest1
      | [] => false
    else if b == 0xE0 then
      match rest with
      | b1 :: b2 :: rest2 => decide (0xA0 ≤ b1 ∧ b1 ≤ 0xBF) && isCont b2 && utf8Valid rest2
      | _ => false
    else if decide ((0xE1 ≤ b ∧ b ≤ 0xEC) ∨ b = 0xEE ∨ b = 0xEF) then
      match rest with
      | b1 :: b2 :: rest2 => isCont b1 && isCont b2 && utf8Valid rest2
      | _ => false
    else if b == 0xED then
      match rest with
      | b1 :: b2 :: rest2 => decide (0x80 ≤ b1 ∧ b1 ≤ 0x9F) && isCont b2 && utf8Valid rest2
      | _ => false
    else if b == 0xF0 then
      match rest with
      | b1 :: b2 :: b3 :: rest3 =>
        decide (0x90 ≤ b1 ∧ b1 ≤ 0xBF) && isCont b2 && isCont b3 && utf8Valid rest3
      | _ => false
    else if decide (0xF1 ≤ b ∧ b ≤ 0xF3) then
      match rest with
      | b1 :: b2 :: b3 :: rest3 => isCont b1 && isCont b2 && isCont b3 && utf8Valid rest3
      | _ => false
    else if b == 0xF4 then
      match rest with
      | b1 :: b2 :: b3 :: rest3 =>
        decide (0x80 ≤ b1 ∧ b1 ≤ 0x8F) && isCont b2 && isCont b3 && utf8Valid rest3
      | _ => false
    else false

/-- Outcome of decrypt_password: ok carries the UTF-8 byte list of the
returned string, err is an Err return value, panicked is a process panic. -/
inductive DecryptResult where
  | ok (bytes : List Nat)
  | err
  | panicked
  deriving DecidableEq, Repr

/-- Embedding of decrypt_password (config/crypto.rs lines 35-49).  random is
the external RNG byte stream observed by the generate_key call made inside
decrypt_password (seeded from the wall clock at decrypt time, so independent
of the one used at encrypt time).  encrypted[0] on an empty buffer and the
usize subtraction hex.len()/2 - filler_len - 1 panic; the remaining indices
filler_len + 1 + i stay below the buffer length whenever the subtraction
does not underflow, because the decoded length is exactly hex.len()/2. -/
def decrypt_password (random : List Nat) (hexStr : String) : DecryptResult :=
  match hexDecode hexStr with
  | none => .err
  | some encrypted =>
    match encrypted.get? 0 with
    | none => .panicked
    | some b0 =>
      let filler_len := b0
      if hexStr.length / 2 < filler_len + 1 then .panicked
      else
        let secret_len := hexStr.length / 2 - filler_len - 1
        let key := generate_key secret_len random
        let secret := (List.range secret_len).map (fun i =>
          (encrypted.getD (filler_len + 1 + i) 0) ^^^ ((key.getD i 0) &&& 0xFF))
        if utf8Valid secret then .ok secret else .err

/-! Section settings: embedding of src-tauri/src/config/settings_complete.rs. -/

/-- Alias for the builtin string type, usable inside namespaces that declare
a constructor named String. -/
abbrev Str := String

/-- Embedding of enum SettingDataType (settings_complete.rs lines 16-23). -/
inductive SettingDataType where
  | Integer
  | Long
  | Double
  | String
  | Boolean
  | Color
  deriving DecidableEq, Repr

/-- Embedding of SettingDataType::as_i32: the discriminants 1-6 declared in
the source enum. -/
def SettingDataType.as_i32 : SettingDataType → Int
  | .Integer => 1
  | .Long => 2
  | .Double => 3
  | .String => 4
  | .Boolean => 5
  | .Color => 6

/-- Embedding of SettingDataType::from_i32 (settings_complete.rs lines
26-36). -/
def SettingDataType.from_i32 (value : Int) : Except Str SettingDataType :=
  match value with
  | 1 => .ok .Integer
  | 2 => .ok .Long
  | 3 => .ok .Double
  | 4 => .ok .String
  | 5 => .ok .Boolean
  | 6 => .ok .Color
  | _ => .error ("Unknown data type: " ++ toString value)

/-- Embedding of enum SettingValue (settings_complete.rs lines 66-73); the
f64 payload is Lean Float. -/
inductive SettingValue where
  | Integer (i : Int)
  | Long (l : Int)
  | Double (d : Float)
  | String (s : Str)
  | Boolean (b : Bool)
  | Color (r : Nat) (g : Nat) (b : Nat)
  deriving Repr

/-- Embedding of SettingValue::to_xml_string (settings_complete.rs lines
77-86).  showDouble stands for the external f64 Display implementation. -/
def SettingValue.to_xml_string (showDouble : Float → Str) : SettingValue → Str
  | .Integer i => toString i
  | .Long l => toString l
  | .Double d => showDouble d
  | .String s => s
  | .Boolean b => if b then "true" else "false"
  | .Color r g b => toString r ++ "," ++ toString g ++ "," ++ toString b

/-- Decimal digit string to Nat; none when empty or when any character is
not an ASCII digit, matching the core of Rust integer FromStr. -/
def digitsToNat : List Char → Option Nat
  | [] => none
  | cs =>
    if cs.all (fun c => decide ('0' ≤ c ∧ c ≤ '9')) then
      some (cs.foldl (fun a c => a * 10 + (c.toNat - '0'.toNat)) 0)
    else none

/-- Embedding of str::parse for signed integers with inclusive range lo..hi:
an optional leading + or - sign, then decimal digits; out-of-range values
are errors (none). -/
def parseSignedRange (lo hi : Int) (s : String) : Option Int :=
  let core : List Char → Bool → Option Int := fun ds neg =>
    match digitsToNat ds with
    | none => none
    | some n =>
      let v : Int := if neg then -(n : Int) else (n : Int)
      if lo ≤ v ∧ v ≤ hi then some v else none
  match s.toList with
  | '+' :: rest => core rest false
  | '-' :: rest => core rest true
  | cs => core cs false

/-- Rust str::parse::<i32>. -/
def parse_i32 (s : String) : Option Int :=
  parseSignedRange (-(2 ^ 31)) (2 ^ 31 - 1) s

/-- Rust str::parse::<i64>. -/
def parse_i64 (s : String) : Option Int :=
  parseSignedRange (-(2 ^ 63)) (2 ^ 63 - 1) s

/-- Rust str::parse::<u8>: optional leading + (no minus sign), digits,
value at most 255. -/
def parse_u8 (s : String) : Option Nat :=
  let core : List Char → Option Nat := fun ds =>
    match digitsToNat ds with
    | none => none
    | some n => if n ≤ 255 then some n else none
  match s.toList with
  | '+' :: rest => core rest
  | cs => core cs

/-- Rust str::parse::<bool>: exactly "true" or "false", case sensitive. -/
def parse_bool (s : String) : Option Bool :=
  if s = "true" then some true
  else if s = "false" then some false
  else none

/-- ASCII lowercase of one character. -/
def asciiLowerChar (c : Char) : Char :=
  if decide ('A' ≤ c ∧ c ≤ 'Z') then Char.ofNat (c.toNat + 32) else c

/-- Model of str::to_lowercase as used by SettingValue::from_string: ASCII
lowering.  The full Unicode lowering of the source agrees with this model on
whether the result equals one of "true", "1", "false", "0" (no non-ASCII
character lowercases into those strings), which is the only use made of
it. -/
def toLowercase (s : String) : String :=
  String.mk (s.toList.map asciiLowerChar)

/-- Embedding of SettingValue::from_string (settings_complete.rs lines
89-114).  parseDouble stands for the external f64 FromStr implementation. -/
def SettingValue.from_string (parseDouble : Str → Option Float)
    (s : Str) (data_type : SettingDataType) : Except Str SettingValue :=
  match data_type with
  | .Integer =>
    match parse_i32 s with
    | some i => .ok (.Integer i)
    | none => .error ("Invalid integer: " ++ s)
  | .Long =>
    match parse_i64 s with
    | some l => .ok (.Long l)
    | none => .error ("Invalid long: " ++ s)
  | .Double =>
    match parseDouble s with
    | some d => .ok (.Double d)
    | none => .error ("Invalid double: " ++ s)
  | .String => .ok (.String s)
  | .Boolean =>
    let ls := toLowercase s
    if ls = "true" ∨ ls = "1" then .ok (.Boolean true)
    else if ls = "false" ∨ ls = "0" then .ok (.Boolean false)
    else .error ("Invalid boolean: " ++ s)
  | .Color =>
    let parts := s.splitOn ","
    if parts.length = 3 then
      match parse_u8 (parts.getD 0 ""), parse_u8 (parts.getD 1 ""),
            parse_u8 (parts.getD 2 "") with
      | some r, some g, some b => .ok (.Color r g b)
      | _, _, _ => .error "Invalid color component"
    else .error ("Invalid color format: " ++ s)

/-- Embedding of struct Setting (settings_complete.rs lines 56-62). -/
structure Setting where
  key : String
  value : SettingValue
  dynamic : Bool
  data_type : SettingDataType
  persisted : Bool
  deriving Repr

/-- Lookup in the association-list model of HashMap String Setting. -/
def mapGet (m : List (String × Setting)) (k : String) : Option Setting :=
  (m.find? (fun p => p.1 == k)).map Prod.snd

/-- Insert in the association-list model of HashMap String Setting: replace
the existing binding of the key, or append a new one.  All lists built by
the embedding have pairwise distinct keys, so this is exactly
HashMap::insert. -/
def mapInsert (m : List (String × Setting)) (k : String) (v : Setting) :
    List (String × Setting) :=
  if m.any (fun p => p.1 == k) then
    m.map (fun p => if p.1 == k then (k, v) else p)
  else m ++ [(k, v)]

/-- One entry of the default table: every default is persisted. -/
def defaultSetting (k : String) (v : SettingValue) (dyn : Bool)
    (dt : SettingDataType) : String × Setting :=
  (k, ⟨k, v, dyn, dt, true⟩)

/-- Embedding of UserSettings::initialize_defaults (settings_complete.rs
lines 130-429): the default table, one entry per settings.insert call of the
source in source order; the keys are pairwise distinct, so the association
list equals the chain of inserts into an empty map. -/
def initialize_defaults : List (String × Setting) := [
  defaultSetting "browserwindow_maxrows" (.Integer 100) true .Integer,
  defaultSetting "browserwindow_maxrows_per_partition" (.Integer 50) true .Integer,
  defaultSetting "browserwindow_hide_detail_panel" (.Boolean true) true .Boolean,
  defaultSetting "zookeeper_timeout" (.Integer 10000) true .Integer,
  defaultSetting "broker_read_timeout" (.Integer 10000) true .Integer,
  defaultSetting "max.messages.bytes" (.Integer 1048576) true .Integer,
  defaultSetting "show_timestamp_millis" (.Boolean true) true .Boolean,
  defaultSetting "offset.partition.messages" (.Integer 5000) true .Integer,
  defaultSetting "font_size" (.Integer 12) false .Integer,
  defaultSetting "font_use_default" (.Boolean true) false .Boolean,
  defaultSetting "html_escape_json" (.Boolean true) true .Boolean,
  defaultSetting "show_inactive_in_browser" (.Boolean true) true .Boolean,
  defaultSetting "confirm_exit" (.Boolean true) true .Boolean,
  defaultSetting "key_type" (.String "byte_array") true .String,
  defaultSetting "message_type" (.String "byte_array") true .String,
  defaultSetting "dataexport_dest_dir" (.String "") true .String,
  defaultSetting "dataexport_key_file_pattern" (.String "key_#pid#_oid#.bin") true .String,
  defaultSetting "dataexport_message_ccount" (.Long 1000) true .Long,
  defaultSetting "dataexport_offset_type" (.String "FIRST") true .String,
  defaultSetting "dataexport_export_key" (.Boolean false) true .Boolean,
  defaultSetting "dataexport_export_message" (.Boolean true) true .Boolean,
  defaultSetting "dataimport_source_dir" (.String "") true .String,
  defaultSetting "dataimport_key_file_pattern" (.String "key_#pid#_sid#.bin") true .String,
  defaultSetting "dataimport_import_key" (.Boolean false) true .Boolean,
  defaultSetting "dataimport_export_key" (.Boolean false) true .Boolean,
  defaultSetting "dataimport_export_message" (.Boolean true) true .Boolean,
  defaultSetting "add_message_method_file_for_key" (.Boolean true) true .Boolean,
  defaultSetting "add_message_method_file_for_value" (.Boolean true) true .Boolean,
  defaultSetting "datafind_message_ccount" (.Long 1000) true .Long,
  defaultSetting "datafind_offset_type" (.String "FIRST") true .String,
  defaultSetting "datafind_key_search_type" (.String "DONT_SEARCH") true .String,
  defaultSetting "datafind_key_match_type" (.String "CONTAINS") true .String,
  defaultSetting "datafind_key_search_term" (.String "") true .String,
  defaultSetting "datafind_key_search_case_sensitive" (.Boolean true) true .Boolean,
  defaultSetting "datafind_value_search_type" (.String "BINARY") true .String,
  defaultSetting "datafind_value_search_term" (.String "") true .String,
  defaultSetting "datafind_value_match_type" (.String "CONTAINS") true .String,
  defaultSetting "datafind_value_search_case_sensitive" (.Boolean true) true .Boolean,
  defaultSetting "storm_root" (.String "/") true .String]

/-- Embedding of struct UserSettings (settings_complete.rs lines 118-120):
the HashMap is modelled as an association list with distinct keys. -/
structure UserSettings where
  settings : List (String × Setting)

/-- Embedding of UserSettings::new. -/
def UserSettings.new : UserSettings :=
  ⟨initialize_defaults⟩

/-- Embedding of UserSettings::get. -/
def UserSettings.get (s : UserSettings) (key : String) : Option Setting :=
  mapGet s.settings key

/-- Embedding of UserSettings::set (settings_complete.rs lines 474-483):
builds the Setting record from the arguments, with no consistency check
between value and data_type, and unconditionally inserts it. -/
def UserSettings.set (s : UserSettings) (key : String) (value : SettingValue)
    (dynamic : Bool) (data_type : SettingDataType) (persisted : Bool) : UserSettings :=
  ⟨mapInsert s.settings key ⟨key, value, dynamic, data_type, persisted⟩⟩

/-! Section XML events.  quick_xml reads and writes streams of events; the
on-disk text is modelled by the event stream the default quick_xml Reader
presents for it (in particular a self-closing element is an Empty event,
never a Start/End pair, because expand_empty_elements defaults to false),
and the Writer emits exactly the events it is given. -/

/-- Event stream element, mirroring the quick_xml Event constructors the
configuration code reads or writes.  text covers every event kind the
readers ignore (text, comments, declarations). -/
inductive XmlEvent where
  | start (name : String) (attrs : List (String × String))
  | empty (name : String) (attrs : List (String × String))
  | endTag (name : String)
  | text (s : String)
  | eof
  deriving Repr

/-- Embedding of BytesStart::try_get_attribute: the value of the first
attribute with the given name. -/
def getAttr (attrs : List (String × String)) (name : String) : Option String :=
  (attrs.find? (fun p => p.1 == name)).map Prod.snd

/-- Lexicographic comparison of char lists by code point. -/
def charListLe : List Char → List Char → Bool
  | [], _ => true
  | _ :: _, [] => false
  | a :: as, b :: bs =>
    if a.toNat < b.toNat then true
    else if b.toNat < a.toNat then false
    else charListLe as bs

/-- Rust Ord for String (byte-lexicographic, which on UTF-8 coincides with
code-point-lexicographic order). -/
def strLe (a b : String) : Bool :=
  charListLe a.toList b.toList

/-- Insertion step of the sort used for keys.sort() in to_xml. -/
def insertSorted (k : String) : List String → List String
  | [] => [k]
  | x :: xs => if strLe k x then k :: x :: xs else x :: insertSorted k xs

/-- Sorted key list, modelling keys.sort() in UserSettings::to_xml. -/
def sortKeys : List String → List String
  | [] => []
  | x :: xs => insertSorted x (sortKeys xs)

/-- Embedding of UserSettings::to_xml (settings_complete.rs lines 486-514)
at the event level: a Start settings event, one Empty setting element per
persisted entry in sorted key order carrying the five attributes, and an
End settings event.  Note the per-entry element is written with
Event::Empty, i.e. self-closing. -/
def UserSettings.to_xml (showDouble : Float → Str) (s : UserSettings) : List XmlEvent :=
  let keys := sortKeys (s.settings.map Prod.fst)
  XmlEvent.start "settings" [] ::
  (keys.filterMap (fun k =>
    match mapGet s.settings k with
    | some st =>
      if st.persisted then
        some (XmlEvent.empty "setting"
          [("name", st.key),
           ("value", st.value.to_xml_string showDouble),
           ("dynamic", if st.dynamic then "true" else "false"),
           ("data_type", toString st.data_type.as_i32),
           ("persisted", if st.persisted then "true" else "false")])
      else none
    | none => none)) ++
  [XmlEvent.endTag "settings"]

/-- Embedding of the event loop of UserSettings::from_xml
(settings_complete.rs lines 524-566).  The state is the settings map and
the current_setting option; only Start and End events named setting are
acted on (an Empty setting element matches neither arm and is skipped);
a missing attribute, an unparsable data_type, an unknown type code or an
unparsable value aborts the whole load through the ? operator, returning
the map as mutated so far together with the error. -/
def from_xml_loop (parseDouble : Str → Option Float) :
    List (String × Setting) →
    Option (String × String × String × String × String) →
    List XmlEvent → List (String × Setting) × Except String Unit
  | settings, _, [] => (settings, .ok ())
  | settings, cur, e :: rest =>
    match e with
    | .start name attrs =>
      if name = "setting" then
        match getAttr attrs "name", getAttr attrs "value", getAttr attrs "dynamic",
              getAttr attrs "data_type", getAttr attrs "persisted" with
        | some k, some v, some dyn, some dt, some p =>
          from_xml_loop parseDouble settings (some (k, v, dyn, dt, p)) rest
        | _, _, _, _, _ => (settings, .error "Missing attribute")
      else from_xml_loop parseDouble settings cur rest
    | .endTag name =>
      if name = "setting" then
        match cur with
        | some (k, v, dyn, dts, p) =>
          match parse_i32 dts with
          | none => (settings, .error "invalid data_type digits")
          | some code =>
            match SettingDataType.from_i32 code with
            | .error msg => (settings, .error msg)
            | .ok data_type =>
              match SettingValue.from_string parseDouble v data_type with
              | .error msg => (settings, .error msg)
              | .ok value =>
                let dynamic_bool := (parse_bool dyn).getD false
                let persisted_bool := (parse_bool p).getD true
                from_xml_loop parseDouble
                  (mapInsert settings k ⟨k, value, dynamic_bool, data_type, persisted_bool⟩)
                  none rest
        | none => from_xml_loop parseDouble settings none rest
      else from_xml_loop parseDouble settings cur rest
    | .eof => (settings, .ok ())
    | .empty _ _ => from_xml_loop parseDouble settings cur rest
    | .text _ => from_xml_loop parseDouble settings cur rest

/-- Embedding of UserSettings::from_xml (settings_complete.rs lines
517-570): runs the event loop over the document's event stream starting
from the current map with no current_setting; returns the registry as
mutated by the call together with the Result value. -/
def UserSettings.from_xml (parseDouble : Str → Option Float)
    (s : UserSettings) (events : List XmlEvent) : UserSettings × Except Str Unit :=
  let r := from_xml_loop parseDouble s.settings none events
  (⟨r.1⟩, r.2)

/-- Variant tag of a SettingValue, used to state the type-code/variant
invariant. -/
def SettingValue.variantType : SettingValue → SettingDataType
  | .Integer _ => .Integer
  | .Long _ => .Long
  | .Double _ => .Double
  | .String _ => .String
  | .Boolean _ => .Boolean
  | .Color _ _ _ => .Color

/-- Property that a stored Setting's data_type field matches the variant of
its value field. -/
def typeMatches (st : Setting) : Bool :=
  decide (st.value.variantType = st.data_type)

/-- Predicate that every value of the association-list map satisfies P. -/
def mapAll (P : Setting → Bool) (m : List (String × Setting)) : Bool :=
  m.all (fun p => P p.2)

/-- Registries reachable from construction via set calls whose data_type
argument matches the value variant, and via from_xml calls (keeping the
post state whether the load succeeded or aborted). -/
inductive ReachableVia : UserSettings → Prop where
  | new : ReachableVia UserSettings.new
  | set (s : UserSettings) (key : String) (value : SettingValue) (dynamic : Bool)
      (data_type : SettingDataType) (persisted : Bool) :
      ReachableVia s → value.variantType = data_type →
      ReachableVia (s.set key value dynamic data_type persisted)
  | fromXml (s : UserSettings) (parseDouble : Str → Option Float)
      (events : List XmlEvent) :
      ReachableVia s → ReachableVia (s.from_xml parseDouble events).1

/-- Keys named by the name attribute of Start setting events of a document;
every insert performed by from_xml uses one of these keys. -/
def settingRecordNames : List XmlEvent → List String
  | [] => []
  | .start name attrs :: rest =>
    (if name = "setting" then
      (match getAttr attrs "name" with
       | some k => [k]
       | none => []) else []) ++ settingRecordNames rest
  | _ :: rest => settingRecordNames rest

/-- Concrete stand-in for the external f64 Display implementation, used by
closed statements whose registries contain no Double setting. -/
def showD0 : Float → Str := fun _ => ""

/-- Concrete stand-in for the external f64 FromStr implementation, used by
closed statements whose documents contain no Double record. -/
def parseD0 : Str → Option Float := fun _ => none

/-- Settings document with three paired-tag setting records: aaa parses,
bbb carries an unparsable Integer value, ccc parses. -/
def c5doc : List XmlEvent := [
  .start "settings" [],
  .start "setting" [("name", "aaa"), ("value", "1"), ("dynamic", "true"),
    ("data_type", "1"), ("persisted", "true")],
  .endTag "setting",
  .start "setting" [("name", "bbb"), ("value", "notanumber"), ("dynamic", "true"),
    ("data_type", "1"), ("persisted", "true")],
  .endTag "setting",
  .start "setting" [("name", "ccc"), ("value", "3"), ("dynamic", "true"),
    ("data_type", "1"), ("persisted", "true")],
  .endTag "setting",
  .endTag "settings",
  .eof]

/-! Section connections: embedding of src-tauri/src/config/server_connection.rs. -/

/-- Embedding of enum BrokerSecurityType (server_connection.rs lines 17-22). -/
inductive BrokerSecurityType where
  | PLAINTEXT
  | SSL
  | SASL_PLAINTEXT
  | SASL_SSL
  deriving DecidableEq, Repr

/-- Embedding of enum ClusterVersion (server_connection.rs lines 55-87). -/
inductive ClusterVersion where
  | VERSION_0_8_0
  | VERSION_0_8_1
  | VERSION_0_8_2
  | VERSION_0_8_2_0
  | VERSION_0_8_2_1
  | VERSION_0_8_2_2
  | VERSION_0_9
  | VERSION_0_10
  | VERSION_0_10_1
  | VERSION_0_10_2
  | VERSION_0_11
  | VERSION_1_0
  | VERSION_1_1
  | VERSION_2_0
  | VERSION_2_1
  | VERSION_2_2
  | VERSION_2_3
  | VERSION_2_4
  | VERSION_2_5
  | VERSION_2_6
  | VERSION_2_7
  | VERSION_2_8
  | VERSION_3_0
  | VERSION_3_1
  | VERSION_3_2
  | VERSION_3_3
  | VERSION_3_4
  | VERSION_3_5
  | VERSION_3_6
  | VERSION_3_7
  | LATEST
  deriving DecidableEq, Repr

/-- Embedding of struct TopicFolder (server_connection.rs lines 109-111). -/
structure TopicFolder where
  name : String
  deriving DecidableEq, Repr

/-- Embedding of struct TopicDecoderConfig (server_connection.rs lines
125-132). -/
structure TopicDecoderConfig where
  key_decoder : Option String
  message_decoder : Option String
  string_type : Option String
  header_type : Option String
  offset_request_type : Option String
  parent_folder : Option String
  deriving DecidableEq, Repr

/-- Embedding of struct ServerConnection (server_connection.rs lines
137-175); the HashMap of topic configs is modelled as an association
list. -/
structure ServerConnection where
  id : Int
  server_group_id : Int
  name : String
  host : String
  port : Option Int
  chroot : String
  version : ClusterVersion
  broker_security_type : BrokerSecurityType
  bootstrap_servers : String
  validate_ssl_endpoint_hostname : Bool
  enable_poller : Bool
  truststore_location : Option String
  truststore_password : Option String
  keystore_location : Option String
  keystore_password : Option String
  keystore_privatekey : Option String
  sasl_mechanism : Option String
  sasl_callback : Option String
  sasl_endpoint_token : Option String
  jaas_config : Option String
  schema_registry_endpoint : Option String
  schema_registry_basic_auth : Option String
  schema_registry_ssl_truststore_location : Option String
  schema_registry_ssl_truststore_password : Option String
  schema_registry_ssl_keystore_location : Option String
  schema_registry_ssl_keystore_password : Option String
  schema_registry_ssl_keystore_private_key : Option String
  folders : List TopicFolder
  topic_configs : List (String × TopicDecoderConfig)
  deriving DecidableEq, Repr

/-- Embedding of ServerConnection::new (server_connection.rs lines
178-210). -/
def ServerConnection.new (id : Int) (name : Str) : ServerConnection :=
  { id := id
    server_group_id := 1
    name := name
    host := ""
    port := none
    chroot := "/"
    version := .VERSION_1_0
    broker_security_type := .PLAINTEXT
    bootstrap_servers := ""
    validate_ssl_endpoint_hostname := true
    enable_poller := true
    truststore_location := none
    truststore_password := none
    keystore_location := none
    keystore_password := none
    keystore_privatekey := none
    sasl_mechanism := none
    sasl_callback := none
    sasl_endpoint_token := none
    jaas_config := none
    schema_registry_endpoint := none
    schema_registry_basic_auth := none
    schema_registry_ssl_truststore_location := none
    schema_registry_ssl_truststore_password := none
    schema_registry_ssl_keystore_location := none
    schema_registry_ssl_keystore_password := none
    schema_registry_ssl_keystore_private_key := none
    folders := []
    topic_configs := [] }

/-- Rust str::eq_ignore_ascii_case, modelled at char level: ASCII case
folding only affects single-byte characters, so char-level equality of the
folded strings coincides with the byte-level comparison of the source. -/
def eqIgnoreAsciiCase (a b : String) : Bool :=
  a.toList.map asciiLowerChar == b.toList.map asciiLowerChar

/-- Embedding of struct ServerConnectionSettings (server_connection.rs
lines 273-276). -/
structure ServerConnectionSettings where
  connections : List ServerConnection
  next_id : Int
  deriving DecidableEq, Repr

/-- Embedding of ServerConnectionSettings::new (server_connection.rs lines
279-284); nowMillis is the external wall-clock timestamp seeding the id
counter. -/
def ServerConnectionSettings.new (nowMillis : Int) : ServerConnectionSettings :=
  ⟨[], nowMillis⟩

/-- Embedding of ServerConnectionSettings::find_connection_by_name
(server_connection.rs lines 294-296). -/
def ServerConnectionSettings.find_connection_by_name (s : ServerConnectionSettings)
    (name : Str) : Option ServerConnection :=
  s.connections.find? (fun c => eqIgnoreAsciiCase c.name name)

/-- Embedding of ServerConnectionSettings::add_connection
(server_connection.rs lines 298-311): the duplicate-name check precedes
every mutation; on the success path a connection with id 0 receives the
next generated id (generate_id increments next_id and returns it) and the
connection is appended. -/
def ServerConnectionSettings.add_connection (s : ServerConnectionSettings)
    (connection : ServerConnection) : ServerConnectionSettings × Except Str Unit :=
  match s.find_connection_by_name connection.name with
  | some _ =>
    (s, .error ("Server connection with name " ++ connection.name ++ " already exists"))
  | none =>
    if connection.id = 0 then
      let nid := s.next_id + 1
      (⟨s.connections ++ [{ connection with id := nid }], nid⟩, .ok ())
    else
      (⟨s.connections ++ [connection], s.next_id⟩, .ok ())

/-! Section groups: embedding of src-tauri/src/config/server_group.rs. -/

mutual
/-- Embedding of struct ServerGroup (server_group.rs lines 15-19). -/
inductive ServerGroup where
  | mk (id : Int) (name : Str) (children : List ServerGroupChild)

/-- Embedding of enum ServerGroupChild (server_group.rs lines 24-27). -/
inductive ServerGroupChild where
  | Group (g : ServerGroup)
  | Connection (id : Int)
end

/-- Field accessor for the group id. -/
def ServerGroup.id : ServerGroup → Int
  | .mk i _ _ => i

/-- Field accessor for the group name. -/
def ServerGroup.name : ServerGroup → Str
  | .mk _ n _ => n

/-- Field accessor for the children list. -/
def ServerGroup.children : ServerGroup → List ServerGroupChild
  | .mk _ _ cs => cs

/-- Embedding of ServerGroup::add_child (server_group.rs lines 46-48). -/
def ServerGroup.add_child (g : ServerGroup) (child : ServerGroupChild) : ServerGroup :=
  .mk g.id g.name (g.children ++ [child])

mutual
/-- Embedding of ServerGroupManager::find_group_recursive (server_group.rs
lines 96-108): preorder depth-first search, descending only into Group
children. -/
def find_group_recursive : ServerGroup → Int → Option ServerGroup
  | .mk gid name children, id =>
    if gid = id then some (.mk gid name children)
    else find_group_in_children children id

/-- Iteration of find_group_recursive over a children list. -/
def find_group_in_children : List ServerGroupChild → Int → Option ServerGroup
  | [], _ => none
  | .Group sub :: rest, id =>
    match find_group_recursive sub id with
    | some found => some found
    | none => find_group_in_children rest id
  | .Connection _ :: rest, id => find_group_in_children rest id
end

mutual
/-- Embedding of a mutation through ServerGroupManager::get_group_mut
followed by ServerGroup::add_child: the tree with f applied to the first
group found by the search order of find_group_recursive_mut (server_group.rs
lines 110-127), or none when the id does not resolve.  That search checks
the current group, then for each Group child first the child's own id and
then its subtree; since the recursion also checks the child's id first,
the node reached is the same preorder-first match as find_group_recursive. -/
def update_group_recursive_mut (f : ServerGroup → ServerGroup) :
    ServerGroup → Int → Option ServerGroup
  | .mk gid name children, id =>
    if gid = id then some (f (.mk gid name children))
    else
      match update_children_mut f children id with
      | some cs => some (.mk gid name cs)
      | none => none

/-- Iteration of update_group_recursive_mut over a children list. -/
def update_children_mut (f : ServerGroup → ServerGroup) :
    List ServerGroupChild → Int → Option (List ServerGroupChild)
  | [], _ => none
  | .Group sub :: rest, id =>
    match update_group_recursive_mut f sub id with
    | some sub2 => some (.Group sub2 :: rest)
    | none =>
      match update_children_mut f rest id with
      | some rest2 => some (.Group sub :: rest2)
      | none => none
  | .Connection cid :: rest, id =>
    match update_children_mut f rest id with
    | some rest2 => some (.Connection cid :: rest2)
    | none => none
end

/-- Embedding of struct ServerGroupManager (server_group.rs lines 60-63). -/
structure ServerGroupManager where
  root : ServerGroup
  next_id : Int

/-- Embedding of ServerGroupManager::new (server_group.rs lines 66-72). -/
def ServerGroupManager.new : ServerGroupManager :=
  ⟨.mk 0 "Root" [], 1⟩

/-- Embedding of ServerGroupManager::get_group (server_group.rs lines
82-87): id 0 resolves to the root, otherwise depth-first search. -/
def ServerGroupManager.get_group (m : ServerGroupManager) (id : Int) :
    Option ServerGroup :=
  if id = 0 then some m.root
  else find_group_recursive m.root id

/-- Embedding of ServerGroupManager::add_group (server_group.rs lines
129-141): the id is taken and the counter incremented before the parent
lookup, the new empty group is appended to the children of the resolved
parent (id 0 resolving to the root as in get_group_mut), and an unknown
parent id is an error. -/
def ServerGroupManager.add_group (m : ServerGroupManager) (parent_id : Int)
    (name : Str) : ServerGroupManager × Except Str Int :=
  let id := m.next_id
  let nid := m.next_id + 1
  let new_group : ServerGroup := .mk id name []
  if parent_id = 0 then
    (⟨m.root.add_child (.Group new_group), nid⟩, .ok id)
  else
    match update_group_recursive_mut (fun g => g.add_child (.Group new_group))
        m.root parent_id with
    | some root2 => (⟨root2, nid⟩, .ok id)
    | none => (⟨m.root, nid⟩, .error ("Parent group not found: " ++ toString parent_id))

/-- Embedding of a caller using ServerGroupManager::get_group_mut
(server_group.rs lines 89-94) to push a child into the group with the
given id: id 0 resolves to the root, otherwise the depth-first search; none
when the id does not resolve. -/
def ServerGroupManager.add_child_in (m : ServerGroupManager) (gid : Int)
    (child : ServerGroupChild) : Option ServerGroupManager :=
  if gid = 0 then some ⟨m.root.add_child child, m.next_id⟩
  else
    match update_group_recursive_mut (fun g => g.add_child child) m.root gid with
    | some root2 => some ⟨root2, m.next_id⟩
    | none => none

mutual
/-- Embedding of ServerGroupManager::write_group (server_group.rs lines
161-182) at the event level: a Start servergroup element with name and id
attributes, the serialized children in order, and the End event; a
connection reference is one Empty connection element with an id
attribute. -/
def write_group_events : ServerGroup → List XmlEvent
  | .mk gid name children =>
    XmlEvent.start "servergroup" [("name", name), ("id", toString gid)] ::
    (write_children_events children ++ [XmlEvent.endTag "servergroup"])

/-- Iteration of write_group_events over a children list. -/
def write_children_events : List ServerGroupChild → List XmlEvent
  | [] => []
  | .Group sub :: rest => write_group_events sub ++ write_children_events rest
  | .Connection cid :: rest =>
    XmlEvent.empty "connection" [("id", toString cid)] :: write_children_events rest
end

/-- Embedding of ServerGroupManager::to_xml (server_group.rs lines
153-159) at the event level. -/
def ServerGroupManager.to_xml (m : ServerGroupManager) : List XmlEvent :=
  XmlEvent.start "servergroups" [] ::
  (write_group_events m.root ++ [XmlEvent.endTag "servergroups"])

/-- Embedding of ServerGroupManager::from_xml (server_group.rs lines
185-188): the body is a TODO stub that ignores its input and returns
Ok(()) without touching the manager. -/
def ServerGroupManager.from_xml (m : ServerGroupManager) (_xml : List XmlEvent) :
    ServerGroupManager × Except Str Unit :=
  (m, .ok ())

/-- Manager holding root → group Team (id 1) → connection reference 42,
as produced by new, add_group and a get_group_mut push (proved in the C6
theorem). -/
def c6mgr : ServerGroupManager :=
  ⟨.mk 0 "Root" [.Group (.mk 1 "Team" [.Connection 42])], 2⟩

/-- Keys of the setting records a document load actually parses and inserts,
mirroring the state transitions of from_xml_loop from the given
current_setting state: a key is collected exactly when the corresponding
End setting event performs an insert. -/
def parsedRecordKeys (parseDouble : Str → Option Float) :
    Option (String × String × String × String × String) →
    List XmlEvent → List String
  | _, [] => []
  | cur, e :: rest =>
    match e with
    | .start name attrs =>
      if name = "setting" then
        match getAttr attrs "name", getAttr attrs "value", getAttr attrs "dynamic",
              getAttr attrs "data_type", getAttr attrs "persisted" with
        | some k, some v, some dyn, some dt, some p =>
          parsedRecordKeys parseDouble (some (k, v, dyn, dt, p)) rest
        | _, _, _, _, _ => []
      else parsedRecordKeys parseDouble cur rest
    | .endTag name =>
      if name = "setting" then
        match cur with
        | some (k, v, _dyn, dts, _p) =>
          match parse_i32 dts with
          | none => []
          | some code =>
            match SettingDataType.from_i32 code with
            | .error _ => []
            | .ok data_type =>
              match SettingValue.from_string parseDouble v data_type with
              | .error _ => []
              | .ok _ => k :: parsedRecordKeys parseDouble none rest
        | none => parsedRecordKeys parseDouble none rest
      else parsedRecordKeys parseDouble cur rest
    | .eof => []
    | .empty _ _ => parsedRecordKeys parseDouble cur rest
    | .text _ => parsedRecordKeys parseDouble cur rest

/-! Theorems: the claims of the specification, settled against the embedding. -/

/-- Helper: the filler loop panics (returns none) whenever the number of
remaining iterations exceeds the digest bytes left from digest_pos. -/
theorem fillerLoop_eq_none (digest_bytes : List Nat) :
    ∀ n digest_pos, 0 < n → digest_bytes.length < digest_pos + n →
      fillerLoop digest_bytes n digest_pos = none := by
  intro n
  induction n with
  | zero => intro dp h hlt; omega
  | succ m ih =>
    intro dp _ hlt
    unfold fillerLoop
    cases hget : digest_bytes.get? dp with
    | none => rfl
    | some b =>
      have hdp : dp < digest_bytes.length := (List.get?_eq_some.mp hget).1
      rw [ih (dp + 1) (by omega) (by omega)]

/-- Helper: generate_filler panics whenever the digest has the SHA-1 length
of 20 bytes and more than 20 filler bytes are requested. -/
theorem generate_filler_long_panics (digest_bytes : List Nat) (filler_len : Nat)
    (hd : digest_bytes.length = 20) (hf : 20 < filler_len) :
    generate_filler digest_bytes filler_len = none := by
  simp only [generate_filler]
  rw [if_pos (by omega), fillerLoop_eq_none digest_bytes filler_len 0 (by omega) (by omega)]

/-- Helper: encrypt_password panics for every plaintext shorter than 107
bytes, because filler_len = 127 - len exceeds the 20-byte SHA-1 digest and
generate_filler indexes the digest out of bounds. -/
theorem encrypt_password_short_panics (sha1 : List Nat → List Nat) (random : List Nat)
    (password : List Nat) (hlen : password.length ≤ 106)
    (hdig : (sha1 (generate_key password.length random)).length = 20) :
    encrypt_password sha1 random password = none := by
  simp only [encrypt_password, List.length_map, List.length_range]
  rw [if_pos (by simp only [BUFFER_SIZE]; omega),
    generate_filler_long_panics _ _ hdig (by simp only [BUFFER_SIZE]; omega)]

/-- Claim C1 (SecretCodec round-trip): refuting evaluation.  Encrypting the
empty plaintext — a string of at most 126 bytes — panics inside
generate_filler (the digest index runs past the 20-byte SHA-1 digest), so
decrypt_password applied to the result of encrypt_password cannot return Ok
of the original: encrypt_password never returns at all.  The statement holds
for every RNG byte stream and every digest function with the SHA-1 output
length. -/
theorem C1_roundtrip_fails_encrypt_panics (sha1 : List Nat → List Nat)
    (random : List Nat) (hdig : (sha1 []).length = 20) :
    encrypt_password sha1 random [] = none :=
  encrypt_password_short_panics sha1 random [] (by simp) hdig

/-- Witness for C1_roundtrip_fails_encrypt_panics at a concrete digest
function and RNG stream. -/
theorem C1_roundtrip_fails_encrypt_panics_witness :
    encrypt_password (fun _ => List.replicate 20 0) [] [] = none :=
  C1_roundtrip_fails_encrypt_panics (fun _ => List.replicate 20 0) [] (by simp)

/-- Claim C2 (keystream determinism in the length alone): refuted.  The
keystream for a given length is a function of the RNG byte stream, which
generate_key draws from a generator seeded with the wall-clock milliseconds
of the invocation: for length 1, an invocation whose RNG byte is 0x00
derives keystream [1] while one whose RNG byte is 0x03 derives [3], so two
invocations for the same length need not agree. -/
theorem C2_keystream_not_length_determined :
    generate_key 1 [0] = [1] ∧ generate_key 1 [3] = [3] ∧
      generate_key 1 [0] ≠ generate_key 1 [3] := by
  refine ⟨rfl, rfl, ?_⟩
  decide

/-- Claim C3 (SecretCodec output shape): refuting evaluation.  For the
4-byte plaintext "test" (bytes [116, 101, 115, 116], at most 126 bytes)
encrypt_password panics — embedded as none — instead of completing with a
256-character hex string, for every RNG stream and every digest function of
SHA-1 output length. -/
theorem C3_encrypt_panics_on_test (sha1 : List Nat → List Nat) (random : List Nat)
    (hdig : (sha1 (generate_key 4 random)).length = 20) :
    encrypt_password sha1 random [116, 101, 115, 116] = none :=
  encrypt_password_short_panics sha1 random [116, 101, 115, 116] (by simp) hdig

/-- Witness for C3_encrypt_panics_on_test at a concrete digest function and
RNG stream. -/
theorem C3_encrypt_panics_on_test_witness :
    encrypt_password (fun _ => List.replicate 20 0) [1, 2, 3, 4]
      [116, 101, 115, 116] = none :=
  C3_encrypt_panics_on_test (fun _ => List.replicate 20 0) [1, 2, 3, 4] (by simp)

/-- Claim C9 (decode failure behavior): refuting evaluation.  On input "ff"
the hex decodes to the single byte 0xFF, so filler_len = 255 and
filler_len + 1 exceeds the 1-byte buffer; the claim requires an error
result, but decrypt_password panics on the usize underflow of
hex.len()/2 - filler_len - 1, whatever byte stream the wall-clock-seeded
RNG supplies. -/
theorem C9_decrypt_panics_on_inconsistent_length (random : List Nat) :
    decrypt_password random "ff" = .panicked := rfl

/-- Claim C5 (per-record fault isolation on settings load): refuting
evaluation.  On a document with well-formed records aaa and ccc around a
record bbb whose value does not parse as its declared Integer type,
from_xml aborts the whole load with the parse error: aaa (before the bad
record) was already inserted, but ccc (after it) is never loaded. -/
theorem C5_malformed_record_aborts_load :
    (∃ msg, (UserSettings.new.from_xml parseD0 c5doc).2 = .error msg) ∧
    (UserSettings.new.from_xml parseD0 c5doc).1.get "aaa"
      = some ⟨"aaa", .Integer 1, true, .Integer, true⟩ ∧
    (UserSettings.new.from_xml parseD0 c5doc).1.get "ccc" = none :=
  ⟨⟨"Invalid integer: notanumber", rfl⟩, rfl, rfl⟩

/-- Claim C6 (group tree round-trip): refuting evaluation.  Building the
tree root → group Team (generated id 1) → connection reference 42 via the
manager operations, serializing it, and deserializing the output into a
fresh manager leaves the fresh manager untouched, because from_xml is a
TODO stub: the load reports Ok but get_group 1 on the result returns none
instead of the Team group with the single ConnectionRef 42 child. -/
theorem C6_group_roundtrip_lost :
    (ServerGroupManager.new.add_group 0 "Team").2 = .ok 1 ∧
    (ServerGroupManager.new.add_group 0 "Team").1.add_child_in 1 (.Connection 42)
      = some c6mgr ∧
    c6mgr.get_group 1 = some (.mk 1 "Team" [.Connection 42]) ∧
    (ServerGroupManager.new.from_xml c6mgr.to_xml).2 = .ok () ∧
    (ServerGroupManager.new.from_xml c6mgr.to_xml).1.get_group 1 = none :=
  ⟨rfl, rfl, rfl, rfl, rfl⟩

/-- Claim C4 (settings registry round-trip): refuting evaluation.  Starting
from the default registry with font_size overwritten to Integer 13, to_xml
emits each persisted record as a self-closing Empty setting element;
from_xml handles only paired Start/End setting events, so loading the
document into a fresh default registry inserts nothing: the load reports
Ok, yet font_size in the result still carries the default Integer 12
while the original carried Integer 13. -/
theorem C4_settings_roundtrip_drops_records :
    (UserSettings.new.from_xml parseD0
        ((UserSettings.new.set "font_size" (.Integer 13) false .Integer true).to_xml
          showD0)).2 = .ok () ∧
    (UserSettings.new.from_xml parseD0
        ((UserSettings.new.set "font_size" (.Integer 13) false .Integer true).to_xml
          showD0)).1.get "font_size"
      = some ⟨"font_size", .Integer 12, false, .Integer, true⟩ ∧
    (UserSettings.new.set "font_size" (.Integer 13) false .Integer true).get "font_size"
      = some ⟨"font_size", .Integer 13, false, .Integer, true⟩ ∧
    (⟨"font_size", .Integer 12, false, .Integer, true⟩ : Setting)
      ≠ ⟨"font_size", .Integer 13, false, .Integer, true⟩ := by
  refine ⟨rfl, rfl, rfl, ?_⟩
  intro h
  simp only [Setting.mk.injEq, SettingValue.Integer.injEq] at h
  exact absurd h.2.1 (by decide)

/-- Helper: lookup on a cons cell of the association-list map. -/
theorem mapGet_cons (p : String × Setting) (ps : List (String × Setting)) (k : String) :
    mapGet (p :: ps) k = if p.1 == k then some p.2 else mapGet ps k := by
  unfold mapGet
  cases hp : (p.1 == k) <;> simp [List.find?, hp]

/-- Helper: the replace pass of mapInsert does not change the binding of
any other key. -/
theorem mapGet_map_replace_ne (kv k : String) (v : Setting)
    (hbk : (kv == k) = false) :
    ∀ m : List (String × Setting),
      mapGet (m.map (fun p => if p.1 == kv then (kv, v) else p)) k = mapGet m k := by
  intro m
  induction m with
  | nil => rfl
  | cons p ps ih =>
    simp only [List.map_cons, mapGet_cons]
    by_cases hp : (p.1 == kv) = true
    · have hpk : (p.1 == k) = false := by
        have h1 : p.1 = kv := by simpa using hp
        rw [h1]; exact hbk
      rw [if_pos hp]
      simp only [hbk, hpk, Bool.false_eq_true, if_false, ih]
    · rw [if_neg hp, ih]

/-- Helper: appending a binding for another key does not change a lookup. -/
theorem mapGet_append_one_ne (kv k : String) (v : Setting)
    (hbk : (kv == k) = false) :
    ∀ m : List (String × Setting), mapGet (m ++ [(kv, v)]) k = mapGet m k := by
  intro m
  induction m with
  | nil =>
    simp only [List.nil_append, mapGet_cons, hbk, Bool.false_eq_true, if_false]
  | cons p ps ih =>
    simp only [List.cons_append, mapGet_cons, ih]

/-- Helper: mapInsert at one key does not change the lookup of another. -/
theorem mapGet_mapInsert_ne (m : List (String × Setting)) (kv k : String)
    (v : Setting) (h : kv ≠ k) :
    mapGet (mapInsert m kv v) k = mapGet m k := by
  have hbk : (kv == k) = false := by simpa using h
  unfold mapInsert
  split
  · exact mapGet_map_replace_ne kv k v hbk m
  · exact mapGet_append_one_ne kv k v hbk m

/-- Helper: mapInsert preserves a pointwise property of the stored values. -/
theorem mapAll_mapInsert {P : Setting → Bool} {m : List (String × Setting)}
    {k : String} {v : Setting} (hm : mapAll P m = true) (hv : P v = true) :
    mapAll P (mapInsert m k v) = true := by
  unfold mapAll at hm ⊢
  rw [List.all_eq_true] at hm
  unfold mapInsert
  split
  · rw [List.all_eq_true]
    intro x hx
    rw [List.mem_map] at hx
    obtain ⟨p, hp, rfl⟩ := hx
    by_cases hpk : (p.1 == k) = true
    · rw [if_pos hpk]; exact hv
    · rw [if_neg hpk]; exact hm p hp
  · rw [List.all_eq_true]
    intro x hx
    rw [List.mem_append] at hx
    cases hx with
    | inl hx => exact hm x hx
    | inr hx =>
      simp only [List.mem_singleton] at hx
      subst hx
      exact hv

/-- Helper: a looked-up value inherits a pointwise property of the map. -/
theorem mapAll_get {P : Setting → Bool} {m : List (String × Setting)}
    {k : String} {st : Setting}
    (hm : mapAll P m = true) (hget : mapGet m k = some st) : P st = true := by
  unfold mapAll at hm
  rw [List.all_eq_true] at hm
  unfold mapGet at hget
  cases hf : m.find? (fun p => p.1 == k) with
  | none => rw [hf] at hget; cases hget
  | some p =>
    rw [hf] at hget
    have hmem : p ∈ m := List.mem_of_find?_eq_some hf
    have hp := hm p hmem
    simp only [Option.map_some'] at hget
    cases hget
    exact hp

/-- Helper: from_string always returns the variant selected by its
data_type argument. -/
theorem from_string_variantType (parseDouble : Str → Option Float) (v : Str)
    (dt : SettingDataType) (value : SettingValue)
    (h : SettingValue.from_string parseDouble v dt = .ok value) :
    value.variantType = dt := by
  cases dt <;> simp only [SettingValue.from_string] at h <;>
    (try split at h) <;> (try split at h) <;>
    simp_all [SettingValue.variantType] <;>
    (subst h; rfl)

/-- Helper: the from_xml event loop preserves the type-code/variant
invariant of the settings map, whatever the document and the initial
current_setting state, and whether or not the load aborts. -/
theorem from_xml_loop_mapAll (parseDouble : Str → Option Float) :
    ∀ (events : List XmlEvent) (settings : List (String × Setting))
      (cur : Option (String × String × String × String × String)),
      mapAll typeMatches settings = true →
      mapAll typeMatches (from_xml_loop parseDouble settings cur events).1 = true := by
  intro events
  induction events with
  | nil => intro s cur h; exact h
  | cons e rest ih =>
    intro s cur h
    cases e with
    | start name attrs =>
      by_cases hn : name = "setting"
      · simp only [from_xml_loop, if_pos hn]
        cases getAttr attrs "name" <;> cases getAttr attrs "value" <;>
          cases getAttr attrs "dynamic" <;> cases getAttr attrs "data_type" <;>
          cases getAttr attrs "persisted" <;>
          first
            | exact ih _ _ h
            | exact h
      · simp only [from_xml_loop, if_neg hn]
        exact ih _ _ h
    | endTag name =>
      by_cases hn : name = "setting"
      · cases cur with
        | none =>
          simp only [from_xml_loop, if_pos hn]
          exact ih _ _ h
        | some t =>
          obtain ⟨k, v, dyn, dts, p⟩ := t
          simp only [from_xml_loop, if_pos hn]
          split
          · exact h
          · split
            · exact h
            · split
              · exact h
              · rename_i value hp3
                refine ih _ _ (mapAll_mapInsert h ?_)
                exact decide_eq_true (from_string_variantType _ _ _ _ hp3)
      · simp only [from_xml_loop, if_neg hn]
        exact ih _ _ h
    | eof => exact h
    | empty name attrs => exact ih _ _ h
    | text t => exact ih _ _ h

/-- Helper: every registry reachable through consistent set calls and
from_xml calls satisfies the type-code/variant invariant pointwise. -/
theorem reachable_mapAll : ∀ s : UserSettings, ReachableVia s →
    mapAll typeMatches s.settings = true := by
  intro s hs
  induction hs with
  | new => decide
  | set s key value dyn dt pers hr hmatch ih =>
    exact mapAll_mapInsert ih (decide_eq_true hmatch)
  | fromXml s parseD events hr ih =>
    exact from_xml_loop_mapAll parseD events s.settings none ih

/-- Claim C8 (type-code/variant invariant): counterexample.  set stores its
data_type argument without checking it against the value variant, so a
single set call on the freshly constructed registry yields a stored Setting
whose Integer value sits under a Boolean type code. -/
theorem C8_set_mismatched_type_counterexample :
    ((UserSettings.new.set "k" (.Integer 5) true .Boolean true).get "k"
      = some ⟨"k", .Integer 5, true, .Boolean, true⟩) ∧
    (SettingValue.Integer 5).variantType ≠ SettingDataType.Boolean :=
  ⟨rfl, by decide⟩

/-- Claim C8 as amended: in every registry reachable from construction via
set calls whose data_type argument matches the variant of the value passed,
and via from_xml calls, every stored Setting's data_type field matches the
variant of its value field. -/
theorem C8_type_invariant_for_consistent_sets (s : UserSettings)
    (hs : ReachableVia s) (k : String) (st : Setting)
    (hget : s.get k = some st) : st.value.variantType = st.data_type :=
  of_decide_eq_true (mapAll_get (reachable_mapAll s hs) hget)

/-- Witness for C8_type_invariant_for_consistent_sets on the freshly
constructed registry at key font_size. -/
theorem C8_type_invariant_for_consistent_sets_witness :
    (Setting.mk "font_size" (.Integer 12) false .Integer true).value.variantType
      = (Setting.mk "font_size" (.Integer 12) false .Integer true).data_type :=
  C8_type_invariant_for_consistent_sets UserSettings.new .new "font_size" _ rfl

/-- Helper: the from_xml event loop changes no binding outside the keys of
the records it parses and inserts, whatever the initial current_setting
state, and whether or not the load aborts. -/
theorem from_xml_loop_frame (parseDouble : Str → Option Float) (k : String) :
    ∀ (events : List XmlEvent) (settings : List (String × Setting))
      (cur : Option (String × String × String × String × String)),
      k ∉ parsedRecordKeys parseDouble cur events →
      mapGet (from_xml_loop parseDouble settings cur events).1 k = mapGet settings k := by
  intro events
  induction events with
  | nil => intro s cur hk; rfl
  | cons e rest ih =>
    intro s cur hk
    cases e with
    | start name attrs =>
      by_cases hn : name = "setting"
      · simp only [from_xml_loop, if_pos hn]
        simp only [parsedRecordKeys, if_pos hn] at hk
        revert hk
        cases getAttr attrs "name" <;> cases getAttr attrs "value" <;>
          cases getAttr attrs "dynamic" <;> cases getAttr attrs "data_type" <;>
          cases getAttr attrs "persisted" <;> intro hk <;>
          first
            | exact ih _ _ hk
            | rfl
      · simp only [from_xml_loop, if_neg hn]
        simp only [parsedRecordKeys, if_neg hn] at hk
        exact ih _ _ hk
    | endTag name =>
      by_cases hn : name = "setting"
      · cases cur with
        | none =>
          simp only [from_xml_loop, if_pos hn]
          simp only [parsedRecordKeys, if_pos hn] at hk
          exact ih _ _ hk
        | some t =>
          obtain ⟨k2, v, dyn, dts, p⟩ := t
          simp only [from_xml_loop, if_pos hn]
          simp only [parsedRecordKeys, if_pos hn] at hk
          split
          · rfl
          · split
            · rfl
            · split
              · rfl
              · rename_i x2 code hcode x1 dt hdt x0 value hp3
                simp only [hcode, hdt, hp3] at hk
                rw [List.mem_cons] at hk
                push_neg at hk
                rw [ih _ _ hk.2]
                exact mapGet_mapInsert_ne _ _ _ _ (fun hc => hk.1 hc.symm)
      · simp only [from_xml_loop, if_neg hn]
        simp only [parsedRecordKeys, if_neg hn] at hk
        exact ih _ _ hk
    | eof => rfl
    | empty name attrs =>
      simp only [parsedRecordKeys] at hk
      exact ih _ _ hk
    | text t =>
      simp only [parsedRecordKeys] at hk
      exact ih _ _ hk

/-- Claim C10 (settings load is a merge, not a replacement): for every
registry and every document the load accepts, every key not named by a
parsed setting record keeps exactly its prior Setting — from_xml only adds
or overwrites the keys of the records it parses and never removes or
alters any other entry. -/
theorem C10_from_xml_frame (parseDouble : Str → Option Float)
    (s : UserSettings) (events : List XmlEvent) (k : String)
    (hk : k ∉ parsedRecordKeys parseDouble none events)
    (_hok : (s.from_xml parseDouble events).2 = .ok ()) :
    (s.from_xml parseDouble events).1.get k = s.get k :=
  from_xml_loop_frame parseDouble k events s.settings none hk

/-- Witness for C10_from_xml_frame: loading one record named zzz into the
default registry leaves font_size untouched. -/
theorem C10_from_xml_frame_witness :
    ((UserSettings.new.from_xml parseD0
        [.start "setting" [("name", "zzz"), ("value", "7"), ("dynamic", "true"),
          ("data_type", "1"), ("persisted", "true")],
         .endTag "setting", .eof]).1).get "font_size"
      = UserSettings.new.get "font_size" :=
  C10_from_xml_frame parseD0 UserSettings.new
    [.start "setting" [("name", "zzz"), ("value", "7"), ("dynamic", "true"),
      ("data_type", "1"), ("persisted", "true")],
     .endTag "setting", .eof] "font_size" (by decide) rfl

/-- Claim C7 (duplicate-name rejection with atomicity): whenever some
existing connection's name equals the new connection's name under ASCII
case-insensitive comparison, add_connection returns an error and the store
— in particular its connection list — is exactly as it was before the
call. -/
theorem C7_add_connection_duplicate_rejected (s : ServerConnectionSettings)
    (conn : ServerConnection)
    (h : ∃ c ∈ s.connections, eqIgnoreAsciiCase c.name conn.name = true) :
    (∃ msg, (s.add_connection conn).2 = .error msg) ∧
    (s.add_connection conn).1 = s := by
  have hfind : (s.find_connection_by_name conn.name).isSome = true := by
    rw [ServerConnectionSettings.find_connection_by_name, List.find?_isSome]
    exact h
  unfold ServerConnectionSettings.add_connection
  cases hf : s.find_connection_by_name conn.name with
  | none => rw [hf] at hfind; cases hfind
  | some c => exact ⟨⟨_, rfl⟩, rfl⟩

/-- Witness for C7_add_connection_duplicated_rejected: a store holding a
connection Prod rejects a second connection named prod and is left
unchanged. -/
theorem C7_add_connection_duplicate_rejected_witness :
    (∃ msg, (((ServerConnectionSettings.new 100).add_connection
        (ServerConnection.new 1 "Prod")).1.add_connection
        (ServerConnection.new 0 "prod")).2 = .error msg) ∧
    (((ServerConnectionSettings.new 100).add_connection
        (ServerConnection.new 1 "Prod")).1.add_connection
        (ServerConnection.new 0 "prod")).1
      = ((ServerConnectionSettings.new 100).add_connection
        (ServerConnection.new 1 "Prod")).1 :=
  C7_add_connection_duplicate_rejected _ _
    ⟨ServerConnection.new 1 "Prod", by decide⟩

end OffsetExplorer
